import Mathlib

/-!
Shallow embedding of the weather widget in src/src/Weather.jsx.

The widget keeps five independent pieces of React state (city, weatherData,
temp, error, loading), fetches a weather snapshot over HTTP, and renders a
loading indicator, an error banner and a success panel from those flags.
Numeric JS values are modelled as rationals; JS string state is modelled as
Lean strings; the asynchronous fetch is modelled as a start phase (the code
before the await) and a resolve phase (the code after the response arrives),
parameterised by an explicit fetch outcome.  Network activity is modelled by
explicit request lists (the city names a call would send as the q parameter).
-/

set_option autoImplicit false

/-- The weather record fields under main that the widget reads
(main.temp, main.feels_like, main.humidity), in metric units. -/
structure WeatherMain where
  temp : ℚ
  feels_like : ℚ
  humidity : ℚ
deriving DecidableEq

/-- One entry of the weather array: a short condition keyword
(weather[0].main) and a human-readable description. -/
structure WeatherCondition where
  main : String
  description : String
deriving DecidableEq

/-- The JSON body of a successful response, restricted to the fields the
widget reads: name, sys.country, weather, main, wind.speed, clouds.all. -/
structure WeatherSnapshot where
  name : String
  country : String
  weather : List WeatherCondition
  main : WeatherMain
  windSpeed : ℚ
  cloudsAll : ℚ
deriving DecidableEq

/-- The five useState cells of the Weather component:
city, weatherData, temp (the unit-preference string), error, loading. -/
structure WeatherState where
  city : String
  weatherData : Option WeatherSnapshot
  temp : String
  error : Option String
  loading : Bool
deriving DecidableEq

/-- The initial state: useState('Accra'), useState(null), useState('celsius'),
useState(null), useState(false). -/
def initState : WeatherState :=
  { city := "Accra", weatherData := none, temp := "celsius"
    error := none, loading := false }

/-- JS String.prototype.trim: drops leading and trailing whitespace
(space, tab, carriage return, line feed). -/
def jsTrim (s : String) : String :=
  ⟨((s.data.dropWhile Char.isWhitespace).reverse.dropWhile
      Char.isWhitespace).reverse⟩

/-- JS String.prototype.toLowerCase: lowercases every character. -/
def jsToLower (s : String) : String :=
  ⟨s.data.map Char.toLower⟩

/-- JS Number.prototype.toFixed(1): the value rounded to one decimal place. -/
def toFixed1 (x : ℚ) : ℚ :=
  (round (x * 10) : ℚ) / 10

/-- convertTemp from the source: if the unit preference is the string
fahrenheit the metric value is converted by unit * 9 / 5 + 32 and rounded to
one decimal, otherwise (the celsius branch) the value itself is rounded to one
decimal.  The parameter is called unit in the source although it holds the
numeric value; the preference is read from the temp state cell, passed here
explicitly. -/
def convertTemp (temp : String) (unit : ℚ) : ℚ :=
  if temp = "fahrenheit" then toFixed1 (unit * 9 / 5 + 32)
  else toFixed1 unit

/-- The three icon components the WeatherIcon switch can return. -/
inductive IconKind where
  | sun
  | cloudRain
  | cloud
deriving DecidableEq

/-- A rendered icon element: which lucide component, its className and its
aria-label. -/
structure IconElem where
  kind : IconKind
  cls : String
  ariaLabel : String
deriving DecidableEq

/-- The element returned by the clear case of the switch. -/
def clearIcon : IconElem := ⟨.sun, "weather-icon sun", "Clear sky"⟩

/-- The element returned by the rain case of the switch. -/
def rainIcon : IconElem := ⟨.cloudRain, "weather-icon rain", "Rain"⟩

/-- The element returned by the clouds case of the switch. -/
def cloudsIcon : IconElem := ⟨.cloud, "weather-icon cloud", "Cloudy"⟩

/-- The element returned by the default case of the switch. -/
def defaultIcon : IconElem := ⟨.sun, "weather-icon sun", "Default weather"⟩

/-- The WeatherIcon component: a switch on the lowercased condition with
cases clear, rain, clouds and a default. -/
def weatherIcon (condition : String) : IconElem :=
  if jsToLower condition = "clear" then clearIcon
  else if jsToLower condition = "rain" then rainIcon
  else if jsToLower condition = "clouds" then cloudsIcon
  else defaultIcon

/-- What the awaited fetch can deliver: either an HTTP response with a status
and a parsed JSON body, or a rejection (network failure) carrying the thrown
error's message. -/
inductive FetchOutcome where
  | response (status : ℕ) (body : WeatherSnapshot)
  | networkError (msg : String)
deriving DecidableEq

/-- The 404 message thrown in fetchWeather. -/
def cityNotFoundMsg : String :=
  "City not found. Please check the spelling and try again."

/-- The generic failure message thrown in fetchWeather for other non-ok
responses. -/
def genericFailMsg : String :=
  "Failed to fetch weather data. Please try again later."

/-- The code of fetchWeather before the await: setLoading(true);
setError(null).  This is the in-flight state of a lookup. -/
def fetchStart (s : WeatherState) : WeatherState :=
  { s with loading := true, error := none }

/-- The code of fetchWeather after the response arrives.  response.ok means
the status is in [200, 300).  A non-ok 404 throws the city-not-found message,
any other non-ok status throws the generic message, a success stores the
parsed body, a network rejection is caught with its own message; the catch
stores the caught message in error and the finally block always ends
loading. -/
def fetchResolve (s : WeatherState) (o : FetchOutcome) : WeatherState :=
  match o with
  | .response status body =>
      if 200 ≤ status ∧ status < 300 then
        { s with weatherData := some body, loading := false }
      else if status = 404 then
        { s with error := some cityNotFoundMsg, loading := false }
      else
        { s with error := some genericFailMsg, loading := false }
  | .networkError msg =>
      { s with error := some msg, loading := false }

/-- A whole fetchWeather call, under a single in-flight lookup: the start
phase followed by the resolve phase for the given outcome. -/
def fetchWeather (s : WeatherState) (o : FetchOutcome) : WeatherState :=
  fetchResolve (fetchStart s) o

/-- The single GET request a fetchWeather call issues, identified by the city
name sent as the q query parameter. -/
def fetchRequests (cityName : String) : List String := [cityName]

/-- The mount effect: useEffect with an empty dependency array runs
fetchWeather(city) once, unconditionally, on the current (initial) city. -/
def mountLookup (s : WeatherState) (o : FetchOutcome) : WeatherState :=
  fetchWeather s o

/-- The request the mount effect issues: fetchWeather(city) sends the city
state as is. -/
def mountRequests (s : WeatherState) : List String :=
  fetchRequests s.city

/-- handleSubmit: preventDefault, then if city.trim() is truthy (the trimmed
city is non-empty) call fetchWeather(city), else do nothing. -/
def handleSubmit (s : WeatherState) (o : FetchOutcome) : WeatherState :=
  if jsTrim s.city = "" then s else fetchWeather s o

/-- The requests handleSubmit issues: none when the trimmed city is empty,
otherwise exactly the fetchWeather request for the city state. -/
def submitRequests (s : WeatherState) : List String :=
  if jsTrim s.city = "" then [] else fetchRequests s.city

/-- The onClick handler of a unit toggle button: setTemp(u) and nothing
else. -/
def setTempClick (u : String) (s : WeatherState) : WeatherState :=
  { s with temp := u }

/-- The requests a unit toggle issues: the onClick handler only calls
setTemp, so none. -/
def setTempRequests : List String := []

/-- JS truthiness of the error state: null is falsy and so is the empty
string; any other message string is truthy. -/
def errTruthy : Option String → Bool
  | some m => m != ""
  | none => false

/-- Which of the three conditional blocks of the returned markup are
rendered. -/
structure Render where
  showsLoading : Bool
  showsError : Bool
  showsSuccess : Bool
deriving DecidableEq

/-- The render conditions from the source: loading && ..., error && ..., and
weatherData && !error && !loading && ... . -/
def render (s : WeatherState) : Render :=
  { showsLoading := s.loading
    showsError := errTruthy s.error
    showsSuccess := s.weatherData.isSome && !errTruthy s.error && !s.loading }

/-- The temperature value shown in the success panel:
convertTemp(weatherData.main.temp) under the current preference. -/
def displayedTempValue (s : WeatherState) : Option ℚ :=
  s.weatherData.map fun w => convertTemp s.temp w.main.temp

/-- The feels-like value shown in the success panel:
convertTemp(weatherData.main.feels_like) under the current preference. -/
def displayedFeelsLike (s : WeatherState) : Option ℚ :=
  s.weatherData.map fun w => convertTemp s.temp w.main.feels_like

/-- An outcome on which fetchWeather takes the catch path: a non-ok response
or a network rejection. -/
def isFailure : FetchOutcome → Bool
  | .response status _ => !(decide (200 ≤ status ∧ status < 300))
  | .networkError _ => true

/-- One user- or network-driven transition of the widget, under the single
in-flight lookup discipline the specification describes: typing edits the
city, a toggle click edits the unit preference, a blank submission is a
no-op, a non-blank submission starts a lookup when none is outstanding, and
an outstanding lookup resolves with some outcome. -/
inductive Step : WeatherState → WeatherState → Prop where
  | input (s : WeatherState) (v : String) :
      Step s { s with city := v }
  | setUnit (s : WeatherState) (u : String) :
      Step s { s with temp := u }
  | submitBlank (s : WeatherState) :
      jsTrim s.city = "" → Step s s
  | submitStart (s : WeatherState) :
      jsTrim s.city ≠ "" → s.loading = false → Step s (fetchStart s)
  | resolve (s : WeatherState) (o : FetchOutcome) :
      s.loading = true → Step s (fetchResolve s o)

/-- The states the widget can reach from its initial state. -/
inductive Reachable : WeatherState → Prop where
  | init : Reachable initState
  | step {s t : WeatherState} : Reachable s → Step s t → Reachable t

/-- In every reachable state, an outstanding lookup implies no stored error:
the start phase clears the error before setting loading, and nothing sets an
error while loading stays true. -/
theorem loading_error_invariant {s : WeatherState} (h : Reachable s) :
    s.loading = true → s.error = none := by
  induction h with
  | init => intro h; simp [initState] at h
  | step _ hstep ih =>
      cases hstep with
      | input v => intro h; exact ih h
      | setUnit u => intro h; exact ih h
      | submitBlank _ => intro h; exact ih h
      | submitStart _ _ => intro _; rfl
      | resolve o _ =>
          intro h
          cases o with
          | response status body =>
              simp only [fetchResolve] at h
              split at h
              · simp at h
              · split at h <;> simp at h
          | networkError msg => simp [fetchResolve] at h

/-- A sample successful response body used to instantiate theorems with
hypotheses on concrete inputs. -/
def sampleSnapshot : WeatherSnapshot :=
  { name := "Accra", country := "GH"
    weather := [⟨"Clouds", "scattered clouds"⟩]
    main := { temp := 283/10, feels_like := 301/10, humidity := 74 }
    windSpeed := 36/10, cloudsAll := 40 }

/-- Claim C1: the temperature conversion returns x * 9/5 + 32 rounded to one
decimal when the preference is fahrenheit and x rounded to one decimal when
it is celsius; in particular 0 converts to 32.0, 100 to 212.0 and 28.3 to
82.9 fahrenheit.  Purity with respect to the stored snapshot is by
construction: convertTemp reads only its value and the preference. -/
theorem convertTemp_correct :
    (∀ x : ℚ, convertTemp "fahrenheit" x = toFixed1 (x * 9 / 5 + 32)) ∧
    (∀ x : ℚ, convertTemp "celsius" x = toFixed1 x) ∧
    convertTemp "fahrenheit" 0 = 32 ∧
    convertTemp "fahrenheit" 100 = 212 ∧
    convertTemp "fahrenheit" (283/10) = 829/10 := by
  have hf : ∀ x : ℚ, convertTemp "fahrenheit" x = toFixed1 (x * 9 / 5 + 32) := by
    intro x; rw [convertTemp, if_pos rfl]
  have hc : ∀ x : ℚ, convertTemp "celsius" x = toFixed1 x := by
    intro x; rw [convertTemp, if_neg (by decide)]
  refine ⟨hf, hc, ?_, ?_, ?_⟩
  · rw [hf, toFixed1, round_eq]; norm_num
  · rw [hf, toFixed1, round_eq]; norm_num
  · rw [hf, toFixed1, round_eq]; norm_num

/-- Claim C2: the condition-to-icon mapping is total over strings: every
input yields exactly one of the four icon elements, with clear, rain and
clouds (case-insensitively) mapped to their icons and everything else to the
default sun icon. -/
theorem weatherIcon_total_mapping (c : String) :
    weatherIcon c ∈ [clearIcon, rainIcon, cloudsIcon, defaultIcon] ∧
    (jsToLower c = "clear" → weatherIcon c = clearIcon) ∧
    (jsToLower c = "rain" → weatherIcon c = rainIcon) ∧
    (jsToLower c = "clouds" → weatherIcon c = cloudsIcon) ∧
    (jsToLower c ≠ "clear" → jsToLower c ≠ "rain" → jsToLower c ≠ "clouds" →
      weatherIcon c = defaultIcon) := by
  refine ⟨?_, ?_, ?_, ?_, ?_⟩
  · unfold weatherIcon; split_ifs <;> simp
  · intro h; rw [weatherIcon, if_pos h]
  · intro h
    rw [weatherIcon, if_neg (by simp [h]), if_pos h]
  · intro h
    rw [weatherIcon, if_neg (by simp [h]), if_neg (by simp [h]), if_pos h]
  · intro h1 h2 h3
    rw [weatherIcon, if_neg h1, if_neg h2, if_neg h3]

/-- Concrete instances of the icon mapping for each of the four branches. -/
theorem weatherIcon_total_mapping_witness :
    weatherIcon "CLEAR" = clearIcon ∧ weatherIcon "Rain" = rainIcon ∧
    weatherIcon "clouds" = cloudsIcon ∧ weatherIcon "Drizzle" = defaultIcon :=
  ⟨(weatherIcon_total_mapping "CLEAR").2.1 (by decide),
   (weatherIcon_total_mapping "Rain").2.2.1 (by decide),
   (weatherIcon_total_mapping "clouds").2.2.2.1 (by decide),
   (weatherIcon_total_mapping "Drizzle").2.2.2.2 (by decide) (by decide)
     (by decide)⟩

/-- Claim C3, counterexample: a network failure does not store the generic
retry-later message; the catch stores the rejection's own message, here the
browser's Failed to fetch. -/
theorem networkError_message_not_generic :
    (fetchWeather initState (.networkError "Failed to fetch")).error =
      some "Failed to fetch" ∧
    "Failed to fetch" ≠ genericFailMsg :=
  ⟨rfl, by decide⟩

/-- Claim C3, amended: every failing lookup is handled at the boundary,
ends loading and stores a user-facing message: 404 stores the distinct
city-not-found message, any other non-2xx response stores the generic
retry-later message, and a network failure stores the rejection's own
message. -/
theorem fetch_failure_messages (s : WeatherState) (o : FetchOutcome)
    (h : isFailure o = true) :
    ((fetchWeather s o).loading = false) ∧
    ((fetchWeather s o).error.isSome = true) ∧
    (∀ b, o = .response 404 b →
      (fetchWeather s o).error = some cityNotFoundMsg) ∧
    (∀ st b, o = .response st b → st ≠ 404 →
      (fetchWeather s o).error = some genericFailMsg) ∧
    (∀ m, o = .networkError m → (fetchWeather s o).error = some m) := by
  cases o with
  | response st b =>
      have hP : ¬(200 ≤ st ∧ st < 300) := by
        simp [isFailure] at h
        omega
      simp only [fetchWeather, fetchResolve, fetchStart]
      rw [if_neg hP]
      by_cases h4 : st = 404
      · subst h4
        rw [if_pos rfl]
        refine ⟨rfl, rfl, fun b hb => rfl, fun st b hb hne => ?_,
          fun m hm => (by cases hm)⟩
        cases hb
        exact absurd rfl hne
      · rw [if_neg h4]
        refine ⟨rfl, rfl, fun b hb => ?_, fun st b hb hne => rfl,
          fun m hm => (by cases hm)⟩
        cases hb
        exact absurd rfl h4
  | networkError m =>
      exact ⟨rfl, rfl, fun b hb => (by cases hb), fun st b hb => (by cases hb),
        fun m hm => (by cases hm; rfl)⟩

/-- A concrete failing lookup: a 500 response ends loading and stores the
generic message. -/
theorem fetch_failure_messages_witness :
    (fetchWeather initState (.response 500 sampleSnapshot)).loading = false ∧
    (fetchWeather initState (.response 500 sampleSnapshot)).error =
      some genericFailMsg := by
  have h := fetch_failure_messages initState (.response 500 sampleSnapshot)
    (by decide)
  exact ⟨h.1, h.2.2.2.1 500 sampleSnapshot rfl (by decide)⟩

/-- Claim C4: a successful lookup stores the returned snapshot wholesale,
clears any stored error, ends loading, and renders as a success display with
no error banner and no loading indicator. -/
theorem fetch_success_state (s : WeatherState) (st : ℕ) (b : WeatherSnapshot)
    (h1 : 200 ≤ st) (h2 : st < 300) :
    ((fetchWeather s (.response st b)).weatherData = some b) ∧
    ((fetchWeather s (.response st b)).error = none) ∧
    ((fetchWeather s (.response st b)).loading = false) ∧
    render (fetchWeather s (.response st b)) =
      { showsLoading := false, showsError := false, showsSuccess := true } := by
  simp only [fetchWeather, fetchResolve, fetchStart]
  rw [if_pos ⟨h1, h2⟩]
  exact ⟨rfl, rfl, rfl, rfl⟩

/-- A concrete successful lookup at status 200. -/
theorem fetch_success_state_witness :
    (fetchWeather initState (.response 200 sampleSnapshot)).weatherData =
      some sampleSnapshot ∧
    render (fetchWeather initState (.response 200 sampleSnapshot)) =
      { showsLoading := false, showsError := false, showsSuccess := true } := by
  have h := fetch_success_state initState 200 sampleSnapshot (by decide)
    (by decide)
  exact ⟨h.1, h.2.2.2⟩

/-- Claim C5: submission with a blank (whitespace-only) city is a complete
no-op, issuing no request and leaving the state unchanged; with a non-blank
city it performs exactly the mount-time lookup on the current city. -/
theorem handleSubmit_spec (s : WeatherState) (o : FetchOutcome) :
    (jsTrim s.city = "" →
      handleSubmit s o = s ∧ submitRequests s = []) ∧
    (jsTrim s.city ≠ "" →
      handleSubmit s o = mountLookup s o ∧
      submitRequests s = mountRequests s) := by
  constructor
  · intro h
    rw [handleSubmit, if_pos h, submitRequests, if_pos h]
    exact ⟨rfl, rfl⟩
  · intro h
    rw [handleSubmit, if_neg h, submitRequests, if_neg h]
    exact ⟨rfl, rfl⟩

/-- A whitespace-only city used to instantiate the blank-submission case. -/
def blankState : WeatherState := { initState with city := "   " }

/-- Concrete instances: a whitespace-only submission is a no-op with no
request, and the initial Accra submission equals the mount lookup. -/
theorem handleSubmit_spec_witness :
    (handleSubmit blankState (.networkError "x") = blankState ∧
      submitRequests blankState = []) ∧
    (handleSubmit initState (.networkError "x") =
        mountLookup initState (.networkError "x") ∧
      submitRequests initState = mountRequests initState) :=
  ⟨(handleSubmit_spec blankState (.networkError "x")).1 (by decide),
   (handleSubmit_spec initState (.networkError "x")).2 (by decide)⟩

/-- Claim C6: in every reachable state with an outstanding lookup the widget
renders the loading indicator and suppresses both the error banner and the
success panel. -/
theorem loading_renders_only_loading {s : WeatherState} (h : Reachable s)
    (hl : s.loading = true) :
    render s =
      { showsLoading := true, showsError := false, showsSuccess := false } := by
  have he := loading_error_invariant h hl
  simp [render, errTruthy, he, hl]

/-- A concrete in-flight state: the lookup started by submitting the initial
Accra query renders as loading only. -/
theorem loading_renders_only_loading_witness :
    render (fetchStart initState) =
      { showsLoading := true, showsError := false, showsSuccess := false } :=
  loading_renders_only_loading
    (Reachable.step Reachable.init
      (Step.submitStart initState (by decide) rfl)) rfl

/-- Claim C7: a unit toggle click is a pure local state change: it issues no
request, changes only the temp cell, and only alters how the stored numeric
temperature and feels-like values are rendered. -/
theorem setTemp_pure_frame (u : String) (s : WeatherState) :
    (setTempClick u s).city = s.city ∧
    (setTempClick u s).weatherData = s.weatherData ∧
    (setTempClick u s).error = s.error ∧
    (setTempClick u s).loading = s.loading ∧
    (setTempClick u s).temp = u ∧
    setTempRequests = ([] : List String) ∧
    displayedTempValue (setTempClick u s) =
      (s.weatherData.map fun w => convertTemp u w.main.temp) ∧
    displayedFeelsLike (setTempClick u s) =
      (s.weatherData.map fun w => convertTemp u w.main.feels_like) :=
  ⟨rfl, rfl, rfl, rfl, rfl, rfl, rfl, rfl⟩

/-- Claim C8: a failing lookup leaves the stored snapshot (and the query and
unit preference) unchanged, writing only the error message and the loading
flag; while the stored error is truthy the success panel stays hidden. -/
theorem fetch_failure_retains_snapshot (s : WeatherState) (o : FetchOutcome)
    (h : isFailure o = true) :
    ((fetchWeather s o).weatherData = s.weatherData) ∧
    ((fetchWeather s o).city = s.city) ∧
    ((fetchWeather s o).temp = s.temp) ∧
    ((fetchWeather s o).error.isSome = true) ∧
    ((fetchWeather s o).loading = false) ∧
    (errTruthy (fetchWeather s o).error = true →
      (render (fetchWeather s o)).showsSuccess = false) := by
  cases o with
  | response st b =>
      have hP : ¬(200 ≤ st ∧ st < 300) := by
        simp [isFailure] at h
        omega
      simp only [fetchWeather, fetchResolve, fetchStart]
      rw [if_neg hP]
      by_cases h4 : st = 404
      · rw [if_pos h4]
        exact ⟨rfl, rfl, rfl, rfl, rfl, fun ht => (by simp [render, ht])⟩
      · rw [if_neg h4]
        exact ⟨rfl, rfl, rfl, rfl, rfl, fun ht => (by simp [render, ht])⟩
  | networkError m =>
      exact ⟨rfl, rfl, rfl, rfl, rfl, fun ht => (by simp [render, ht])⟩

/-- A state holding a previously fetched snapshot. -/
def stateWithSnapshot : WeatherState :=
  { initState with weatherData := some sampleSnapshot }

/-- A concrete failing lookup over a stored snapshot: the snapshot is
retained and the success panel is hidden. -/
theorem fetch_failure_retains_snapshot_witness :
    (fetchWeather stateWithSnapshot (.networkError "boom")).weatherData =
      stateWithSnapshot.weatherData ∧
    (render (fetchWeather stateWithSnapshot
        (.networkError "boom"))).showsSuccess = false := by
  have h := fetch_failure_retains_snapshot stateWithSnapshot
    (.networkError "boom") (by decide)
  exact ⟨h.1, h.2.2.2.2.2 (by decide)⟩

/-- Claim C9: the query state is initialised to Accra and the mount effect
looks up exactly that initial value. -/
theorem mount_fetches_accra :
    initState.city = "Accra" ∧
    mountRequests initState = ["Accra"] ∧
    (∀ o, mountLookup initState o = fetchWeather initState o) :=
  ⟨rfl, rfl, fun _ => rfl⟩

/-- Projection of fetchResolve on the city cell: no fetch path writes it. -/
theorem fetchResolve_city (s : WeatherState) (o : FetchOutcome) :
    (fetchResolve s o).city = s.city := by
  cases o with
  | response st b =>
      simp only [fetchResolve]
      split_ifs <;> rfl
  | networkError m => rfl

/-- Claim C10: submission never modifies the query text: after handleSubmit
the input still holds the submitted city name. -/
theorem handleSubmit_retains_city (s : WeatherState) (o : FetchOutcome) :
    (handleSubmit s o).city = s.city := by
  unfold handleSubmit
  split
  · rfl
  · exact fetchResolve_city (fetchStart s) o
